import Mathlib

/-!
Verification of the TNFS client (tnfs_client3.py): wire codec, message
model and session engine, shallowly embedded over lists of byte values
(natural numbers below 256).  Python byte strings are modelled as
`List Nat`; Python `None` becomes `Option.none`; a Python exception
raised by a decoder or by the session engine is modelled as an
`Option.none` result of the embedded function.
-/

/-! ## Codec primitives

`struct.pack` raises `struct.error` on an out-of-range value, so the
packers return `Option`.  `struct.unpack(fmt, buf)` requires `buf` to
have exactly `calcsize(fmt)` bytes, so each unpacker matches a list of
the exact length and fails otherwise.  All integers are little-endian.
-/

/-- Model of struct.pack("B", n): one byte, failing out of range. -/
def pack8 (n : Nat) : Option (List Nat) :=
  if n < 256 then some [n] else none

/-- Model of struct.pack("<H", n): two little-endian bytes. -/
def pack16 (n : Nat) : Option (List Nat) :=
  if n < 65536 then some [n % 256, n / 256] else none

/-- Model of struct.pack("<I", n): four little-endian bytes. -/
def pack32 (n : Nat) : Option (List Nat) :=
  if n < 4294967296 then
    some [n % 256, n / 256 % 256, n / 65536 % 256, n / 16777216 % 256]
  else none

/-- Model of struct.unpack("B", buf): buf must be exactly one byte. -/
def unpack8 : List Nat → Option Nat
  | [a] => some a
  | _ => none

/-- Model of struct.unpack("BB", buf). -/
def unpack88 : List Nat → Option (Nat × Nat)
  | [a, b] => some (a, b)
  | _ => none

/-- Model of struct.unpack("<H", buf). -/
def unpack16 : List Nat → Option Nat
  | [a, b] => some (a + 256 * b)
  | _ => none

/-- Model of struct.unpack("<I", buf). -/
def unpack32 : List Nat → Option Nat
  | [a, b, c, d] => some (a + 256 * b + 65536 * c + 16777216 * d)
  | _ => none

/-- Model of struct.unpack("<HBB", buf): the four-byte message header. -/
def unpackHBB : List Nat → Option (Nat × Nat × Nat)
  | [a, b, r, c] => some (a + 256 * b, r, c)
  | _ => none

/-- Model of struct.unpack("<BH", buf): a byte and a 16-bit value. -/
def unpackBH : List Nat → Option (Nat × Nat)
  | [a, b, c] => some (a, b + 256 * c)
  | _ => none

/-- Model of struct.unpack("<BBH", buf). -/
def unpackBBH : List Nat → Option (Nat × Nat × Nat)
  | [a, b, c, d] => some (a, b, c + 256 * d)
  | _ => none

/-- Model of struct.unpack("<BIII", buf): the 13-byte fixed part of an
extended directory entry (flags, size, mtime, ctime). -/
def unpackBIII : List Nat → Option (Nat × Nat × Nat × Nat)
  | [a, b1, b2, b3, b4, c1, c2, c3, c4, d1, d2, d3, d4] =>
    some (a, b1 + 256 * b2 + 65536 * b3 + 16777216 * b4,
          c1 + 256 * c2 + 65536 * c3 + 16777216 * c4,
          d1 + 256 * d2 + 65536 * d3 + 16777216 * d4)
  | _ => none

/-- Model of struct.unpack("<HHHIIII", buf): the 22-byte fixed part of a
Stat response (mode, uid, gid, size, atime, mtime, ctime). -/
def unpackStatFields : List Nat → Option (Nat × Nat × Nat × Nat × Nat × Nat × Nat)
  | [a1, a2, b1, b2, c1, c2, d1, d2, d3, d4, e1, e2, e3, e4,
     f1, f2, f3, f4, g1, g2, g3, g4] =>
    some (a1 + 256 * a2, b1 + 256 * b2, c1 + 256 * c2,
          d1 + 256 * d2 + 65536 * d3 + 16777216 * d4,
          e1 + 256 * e2 + 65536 * e3 + 16777216 * e4,
          f1 + 256 * f2 + 65536 * f3 + 16777216 * f4,
          g1 + 256 * g2 + 65536 * g3 + 16777216 * g4)
  | _ => none

/-- Model of bytes.find of a NUL byte from index pos: the absolute index of the first
zero byte at an index at least pos, none when there is no such byte.
(Python returns -1 in that case.) -/
def findZero (data : List Nat) (pos : Nat) : Option Nat :=
  ((data.drop pos).findIdx? (fun b => b == 0)).map (fun i => pos + i)

/-- Model of getCstr(data, pos) in tnfs_client3.py: on a missing
terminator it returns the pair (None, None) rather than raising.
Python strings are modelled by their UTF-8 byte lists, so the
str.decode step is the identity on the bytes before the terminator. -/
def getCstr (data : List Nat) (pos : Nat) : Option (List Nat) × Option Nat :=
  match findZero data pos with
  | none => (none, none)
  | some e => (some ((data.drop pos).take (e - pos)), some (e + 1))

/-- Model of getCstr called with a possibly-None position: Python slice
and find semantics treat a None start index as 0. -/
def getCstrOpt (data : List Nat) (pos : Option Nat) : Option (List Nat) × Option Nat :=
  getCstr data (pos.getD 0)

/-- Model of an f-string interpolation of an optional string field: a
None field renders as the four characters of "None". -/
def pyStr (o : Option (List Nat)) : List Nat :=
  o.getD [78, 111, 110, 101]

/-- Model of struct.pack("<HBB", conn_id, retry, command) where conn_id
may be None (in which case struct.pack raises, as it does on any
out-of-range field). -/
def packHBB (conn : Option Nat) (retry cmd : Nat) : Option (List Nat) :=
  match conn with
  | none => none
  | some c =>
    match pack16 c, pack8 retry, pack8 cmd with
    | some cb, some rb, some mb => some (cb ++ rb ++ mb)
    | _, _, _ => none

/-- Header parse shared by MessageBase.fromWire: unpack the first four
bytes and raise ValueError (none) unless the opcode matches. -/
def parseHeader (cmd : Nat) (data : List Nat) : Option (Nat × Nat) := do
  let (conn, retry, c) ← unpackHBB (data.take 4)
  if c = cmd then some (conn, retry) else none

/-- Header-plus-status parse shared by every Response.fromWire: the
four-byte header followed by Response.do_ExtraFromWire, which unpacks
one status byte from data[4:5]. -/
def respHeader (cmd : Nat) (data : List Nat) : Option (Nat × Nat × Nat) := do
  let (conn, retry) ← parseHeader cmd data
  let st ← unpack8 ((data.drop 4).take 1)
  some (conn, retry, st)

/-! ## Message model: commands

Each Python class becomes a structure holding the attributes the class
carries, with the constructor defaults of the source.  `fromWire`
starts from a freshly constructed instance (as the source's own Test
harness does) and applies the mutations the decoder performs. -/

/-- The Mount command (TnfsCmd 0x00).  Its setSession override forces
conn_id to 0, so the constructor already holds conn_id = some 0. -/
structure Mount where
  conn_id : Option Nat
  retry : Nat
  ver_maj : Nat
  ver_min : Nat
  location : Option (List Nat)
  user : Option (List Nat)
  password : Option (List Nat)
deriving DecidableEq

/-- Mount(): ver (1,2), location None, user and password empty. -/
def Mount.init : Mount :=
  { conn_id := some 0, retry := 0, ver_maj := 1, ver_min := 2,
    location := none, user := some [], password := some [] }

/-- Mount.setSession ignores its argument and stores 0. -/
def Mount.setSession (m : Mount) (s : Option Nat) : Mount :=
  { m with conn_id := some 0 }

/-- Mount.setRetry. -/
def Mount.setRetry (m : Mount) (r : Nat) : Mount :=
  { m with retry := r }

/-- Mount.do_DataToWire: two version bytes then location, user and
password, each NUL-terminated (a None field renders as "None"). -/
def Mount.do_DataToWire (m : Mount) : Option (List Nat) := do
  let v1 ← pack8 m.ver_min
  let v2 ← pack8 m.ver_maj
  some (v1 ++ v2 ++ pyStr m.location ++ [0] ++ pyStr m.user ++ [0] ++
        pyStr m.password ++ [0])

/-- Mount.toWire: header (conn_id forced to 0) then the payload. -/
def Mount.toWire (m : Mount) : Option (List Nat) := do
  let h ← packHBB m.conn_id m.retry 0
  let d ← m.do_DataToWire
  some (h ++ d)

/-- Mount.fromWire on a fresh instance: header, opcode check, then
version bytes and the three strings.  A missing terminator propagates
None positions exactly as Python slicing with None does. -/
def Mount.fromWire (data : List Nat) : Option Mount := do
  let (conn, retry) ← parseHeader 0 data
  let m := (Mount.init.setSession (some conn)).setRetry retry
  let d := data.drop 4
  let (vmin, vmaj) ← unpack88 (d.take 2)
  let (loc, p1) := getCstr d 2
  let (usr, p2) := getCstrOpt d p1
  let (pw, _) := getCstrOpt d p2
  some { m with ver_maj := vmaj, ver_min := vmin,
                location := loc, user := usr, password := pw }

/-- The OpenDir command (TnfsCmd 0x10). -/
structure OpenDir where
  conn_id : Option Nat
  retry : Nat
  path : Option (List Nat)
deriving DecidableEq

/-- OpenDir(): conn_id None, retry 0, path None. -/
def OpenDir.init : OpenDir := { conn_id := none, retry := 0, path := none }

/-- OpenDir.setSession (the MessageBase behaviour: store the value). -/
def OpenDir.setSession (m : OpenDir) (s : Option Nat) : OpenDir :=
  { m with conn_id := s }

/-- OpenDir.toWire: header then the NUL-terminated path. -/
def OpenDir.toWire (m : OpenDir) : Option (List Nat) := do
  let h ← packHBB m.conn_id m.retry 16
  some (h ++ pyStr m.path ++ [0])

/-- OpenDir.fromWire: header then getCstr at offset 0; a missing
terminator silently stores None as the path. -/
def OpenDir.fromWire (data : List Nat) : Option OpenDir := do
  let (conn, retry) ← parseHeader 16 data
  some { conn_id := some conn, retry := retry,
         path := (getCstr (data.drop 4) 0).1 }

/-! ## Message model: responses -/

/-- Responses whose payload is empty in both directions: Umount (0x01),
CloseDir (0x12), MkDir (0x13), RmDir (0x14), Close (0x23), LSeek
(0x25), Unlink (0x26), ChMod (0x27), Rename (0x28).  They differ only
in their opcode, so one structure serves them all. -/
structure EmptyResponse where
  conn_id : Option Nat
  retry : Nat
  reply : Nat
deriving DecidableEq

/-- Shared fromWire of the empty-payload responses: header, opcode
check, status byte; do_DataFromWire is MessageBase's no-op pass. -/
def emptyRespFromWire (cmd : Nat) (data : List Nat) : Option EmptyResponse := do
  let (conn, retry, st) ← respHeader cmd data
  some { conn_id := some conn, retry := retry, reply := st }

/-- Shared toWire of the empty-payload responses. -/
def emptyRespToWire (cmd : Nat) (m : EmptyResponse) : Option (List Nat) := do
  let h ← packHBB m.conn_id m.retry cmd
  let e ← pack8 m.reply
  some (h ++ e)

/-- UmountResponse.fromWire. -/
def UmountResponse.fromWire : List Nat → Option EmptyResponse :=
  emptyRespFromWire 1

/-- CloseDirResponse.fromWire. -/
def CloseDirResponse.fromWire : List Nat → Option EmptyResponse :=
  emptyRespFromWire 18

/-- MkDirResponse.fromWire. -/
def MkDirResponse.fromWire : List Nat → Option EmptyResponse :=
  emptyRespFromWire 19

/-- RmDirResponse.fromWire. -/
def RmDirResponse.fromWire : List Nat → Option EmptyResponse :=
  emptyRespFromWire 20

/-- CloseResponse.fromWire. -/
def CloseResponse.fromWire : List Nat → Option EmptyResponse :=
  emptyRespFromWire 35

/-- LSeekResponse.fromWire. -/
def LSeekResponse.fromWire : List Nat → Option EmptyResponse :=
  emptyRespFromWire 37

/-- UnlinkResponse.fromWire. -/
def UnlinkResponse.fromWire : List Nat → Option EmptyResponse :=
  emptyRespFromWire 38

/-- ChModResponse.fromWire. -/
def ChModResponse.fromWire : List Nat → Option EmptyResponse :=
  emptyRespFromWire 39

/-- RenameResponse.fromWire. -/
def RenameResponse.fromWire : List Nat → Option EmptyResponse :=
  emptyRespFromWire 40

/-- MountResponse (TnfsCmd 0x00): version pair and, on success, a
16-bit retry-delay hint. -/
structure MountResponse where
  conn_id : Option Nat
  retry : Nat
  reply : Nat
  ver_maj : Nat
  ver_min : Nat
  retry_delay : Option Nat
deriving DecidableEq

/-- MountResponse(): version (0,0), retry_delay None, reply 0. -/
def MountResponse.init : MountResponse :=
  { conn_id := none, retry := 0, reply := 0,
    ver_maj := 0, ver_min := 0, retry_delay := none }

/-- MountResponse.do_DataToWire: version bytes always; the retry delay
only when the reply is 0 (packing a None delay raises). -/
def MountResponse.toWire (m : MountResponse) : Option (List Nat) := do
  let h ← packHBB m.conn_id m.retry 0
  let e ← pack8 m.reply
  let v1 ← pack8 m.ver_min
  let v2 ← pack8 m.ver_maj
  let tail ← if m.reply = 0 then do
      let rd ← m.retry_delay
      pack16 rd
    else some []
  some (h ++ e ++ v1 ++ v2 ++ tail)

/-- MountResponse.fromWire: do_DataFromWire unconditionally unpacks the
two version bytes from data[:2] and, when the status is 0, unpacks the
retry delay from the whole of data[2:] (which must then be exactly two
bytes). -/
def MountResponse.fromWire (data : List Nat) : Option MountResponse := do
  let (conn, retry, st) ← respHeader 0 data
  let d := data.drop 5
  let (vmin, vmaj) ← unpack88 (d.take 2)
  let rd ← if st = 0 then (unpack16 (d.drop 2)).map some else some none
  some { conn_id := some conn, retry := retry, reply := st,
         ver_maj := vmaj, ver_min := vmin, retry_delay := rd }

/-- OpenDirResponse (TnfsCmd 0x10): a one-byte directory handle on
success. -/
structure OpenDirResponse where
  conn_id : Option Nat
  retry : Nat
  reply : Nat
  handle : Option Nat
deriving DecidableEq

/-- OpenDirResponse.fromWire: the handle byte is unpacked from
data[0:1] only when the status is 0 (the Python conditional expression
short-circuits, reading nothing otherwise). -/
def OpenDirResponse.fromWire (data : List Nat) : Option OpenDirResponse := do
  let (conn, retry, st) ← respHeader 16 data
  let d := data.drop 5
  let h ← if st = 0 then (unpack8 (d.take 1)).map some else some none
  some { conn_id := some conn, retry := retry, reply := st, handle := h }

/-- OpenDirResponse.toWire: the handle byte only on success. -/
def OpenDirResponse.toWire (m : OpenDirResponse) : Option (List Nat) := do
  let h ← packHBB m.conn_id m.retry 16
  let e ← pack8 m.reply
  let d ← if m.reply = 0 then do
      let hb ← m.handle
      pack8 hb
    else some []
  some (h ++ e ++ d)

/-- ReadDirResponse (TnfsCmd 0x11): one NUL-terminated name on
success.  Decoding cannot fail past the status byte: a missing
terminator silently stores None. -/
structure ReadDirResponse where
  conn_id : Option Nat
  retry : Nat
  reply : Nat
  path : Option (List Nat)
deriving DecidableEq

/-- ReadDirResponse.fromWire. -/
def ReadDirResponse.fromWire (data : List Nat) : Option ReadDirResponse := do
  let (conn, retry, st) ← respHeader 17 data
  let p := if st = 0 then (getCstr (data.drop 5) 0).1 else none
  some { conn_id := some conn, retry := retry, reply := st, path := p }

/-- OpenDirXResponse (TnfsCmd 0x17): its constructor presets handle
None, reply 255 and entries 0; the path attribute only ever appears
through decoding, modelled as an Option defaulting to None. -/
structure OpenDirXResponse where
  conn_id : Option Nat
  retry : Nat
  reply : Nat
  handle : Option Nat
  entries : Nat
  path : Option (List Nat)
deriving DecidableEq

/-- OpenDirXResponse.do_DataFromWire: an early `return None` (which is
a successful return leaving every field as it was) when fewer than
three payload bytes are present or when the status is nonzero;
otherwise handle, entry count and path are stored. -/
def OpenDirXResponse.do_DataFromWire (m : OpenDirXResponse) (d : List Nat) :
    Option OpenDirXResponse :=
  if d.length < 3 then some m
  else
    match unpackBH (d.take 3) with
    | none => none
    | some (h, e) =>
      if m.reply ≠ 0 then some m
      else some { m with handle := some h, entries := e,
                         path := (getCstr (d.drop 3) 0).1 }

/-- OpenDirXResponse.fromWire on a fresh instance. -/
def OpenDirXResponse.fromWire (data : List Nat) : Option OpenDirXResponse := do
  let (conn, retry, st) ← respHeader 23 data
  OpenDirXResponse.do_DataFromWire
    { conn_id := some conn, retry := retry, reply := st,
      handle := none, entries := 0, path := none }
    (data.drop 5)

/-- OpenDirXResponse.do_DataToWire: only the handle byte on success —
the entry count and path that fromWire expects are never written. -/
def OpenDirXResponse.toWire (m : OpenDirXResponse) : Option (List Nat) := do
  let h ← packHBB m.conn_id m.retry 23
  let e ← pack8 m.reply
  let d ← if m.reply = 0 then do
      let hb ← m.handle
      pack8 hb
    else some []
  some (h ++ e ++ d)

/-- A directory entry of the extended listing.  The source stores
localtime(ctime) and localtime(mtime); the raw seconds are kept here
since the conversion is presentation only. -/
structure DirEntry where
  flags : Nat
  size : Nat
  ctime : Nat
  mtime : Nat
  name : Option (List Nat)
deriving DecidableEq

/-- The entry loop of ReadDirXResponse.do_DataFromWire: each entry is
13 fixed bytes (flags, size, mtime, ctime) then a NUL-terminated name.
A missing terminator leaves the position None, and the next iteration
raises (pos + 13 on None) — modelled by the bind on the position. -/
def parseDirEntries (data : List Nat) : Nat → Option Nat → Option (List DirEntry)
  | 0, _ => some []
  | n + 1, pos => do
    let p ← pos
    let (flags, size, mtime, ctime) ← unpackBIII ((data.drop p).take 13)
    let (name, pos2) := getCstr data (p + 13)
    let rest ← parseDirEntries data n pos2
    some ({ flags := flags, size := size, ctime := ctime, mtime := mtime,
            name := name } :: rest)

/-- ReadDirXResponse (TnfsCmd 0x18): a batch of entries, a
directory-status byte and a position cursor; status and dpos only
appear through decoding. -/
structure ReadDirXResponse where
  conn_id : Option Nat
  retry : Nat
  reply : Nat
  path : Option (List Nat)
  entries : Option (List DirEntry)
  status : Option Nat
  dpos : Option Nat
deriving DecidableEq

/-- ReadDirXResponse.fromWire: on a nonzero status do_DataFromWire
returns at once leaving entries at their constructor default None; on
success it unpacks entry count, status and dpos from data[0:4] and then
parses that many entries. -/
def ReadDirXResponse.fromWire (data : List Nat) : Option ReadDirXResponse := do
  let (conn, retry, st) ← respHeader 24 data
  let m : ReadDirXResponse :=
    { conn_id := some conn, retry := retry, reply := st,
      path := none, entries := none, status := none, dpos := none }
  let d := data.drop 5
  if st ≠ 0 then some m
  else do
    let (ec, dst, dpos) ← unpackBBH (d.take 4)
    let es ← parseDirEntries d ec (some 4)
    some { m with status := some dst, dpos := some dpos, entries := some es }

/-- ReadDirXResponse.do_DataToWire: a single NUL-terminated path on
success — none of the fields fromWire parses are written. -/
def ReadDirXResponse.toWire (m : ReadDirXResponse) : Option (List Nat) := do
  let h ← packHBB m.conn_id m.retry 24
  let e ← pack8 m.reply
  let d := if m.reply = 0 then pyStr m.path ++ [0] else []
  some (h ++ e ++ d)

/-- OpenResponse (TnfsCmd 0x29): a one-byte file descriptor on
success, unpacked from the entire remaining buffer. -/
structure OpenResponse where
  conn_id : Option Nat
  retry : Nat
  reply : Nat
  fd : Option Nat
deriving DecidableEq

/-- OpenResponse.fromWire. -/
def OpenResponse.fromWire (data : List Nat) : Option OpenResponse := do
  let (conn, retry, st) ← respHeader 41 data
  let d := data.drop 5
  let f ← if st = 0 then (unpack8 d).map some else some none
  some { conn_id := some conn, retry := retry, reply := st, fd := f }

/-- ReadResponse (TnfsCmd 0x21): a 16-bit size then the data bytes on
success; do_DataToWire writes only the size, never the data. -/
structure ReadResponse where
  conn_id : Option Nat
  retry : Nat
  reply : Nat
  size : Option Nat
  data : Option (List Nat)
deriving DecidableEq

/-- ReadResponse.fromWire: on success the size comes from data[:2] and
the payload is the remaining slice data[2:]. -/
def ReadResponse.fromWire (data : List Nat) : Option ReadResponse := do
  let (conn, retry, st) ← respHeader 33 data
  let d := data.drop 5
  if st = 0 then do
    let sz ← unpack16 (d.take 2)
    some { conn_id := some conn, retry := retry, reply := st,
           size := some sz, data := some (d.drop 2) }
  else
    some { conn_id := some conn, retry := retry, reply := st,
           size := none, data := none }

/-- ReadResponse.do_DataToWire: only the size field on success. -/
def ReadResponse.toWire (m : ReadResponse) : Option (List Nat) := do
  let h ← packHBB m.conn_id m.retry 33
  let e ← pack8 m.reply
  let d ← if m.reply = 0 then do
      let sz ← m.size
      pack16 sz
    else some []
  some (h ++ e ++ d)

/-- WriteResponse (TnfsCmd 0x22): the 16-bit count of bytes accepted,
unpacked from the entire remaining buffer on success. -/
structure WriteResponse where
  conn_id : Option Nat
  retry : Nat
  reply : Nat
  size : Option Nat
deriving DecidableEq

/-- WriteResponse.fromWire. -/
def WriteResponse.fromWire (data : List Nat) : Option WriteResponse := do
  let (conn, retry, st) ← respHeader 34 data
  let d := data.drop 5
  let sz ← if st = 0 then (unpack16 d).map some else some none
  some { conn_id := some conn, retry := retry, reply := st, size := sz }

/-- StatResponse (TnfsCmd 0x24): mode, uid, gid, size and three times,
then optional user and group strings defaulting to "anonymous". -/
structure StatResponse where
  conn_id : Option Nat
  retry : Nat
  reply : Nat
  mode : Option Nat
  uid : Option Nat
  gid : Option Nat
  size : Option Nat
  atime : Option Nat
  mtime : Option Nat
  ctime : Option Nat
  user : Option (List Nat)
  group : Option (List Nat)
deriving DecidableEq

/-- The bytes of "anonymous", the StatResponse user/group default. -/
def anonymousBytes : List Nat := [97, 110, 111, 110, 121, 109, 111, 117, 115]

/-- StatResponse.fromWire: on success 22 fixed bytes from data[:22];
user and group are read only when more than 22 bytes are present, with
silent None on a missing terminator; on failure every numeric field is
None and user and group are "anonymous". -/
def StatResponse.fromWire (data : List Nat) : Option StatResponse := do
  let (conn, retry, st) ← respHeader 36 data
  let d := data.drop 5
  if st = 0 then do
    let (mode, uid, gid, size, atime, mtime, ctime) ←
      unpackStatFields (d.take 22)
    let (user, group) :=
      if 22 < d.length then
        let (u, p) := getCstr d 22
        let (g, _) := getCstrOpt d p
        (u, g)
      else (some anonymousBytes, some anonymousBytes)
    some { conn_id := some conn, retry := retry, reply := st,
           mode := some mode, uid := some uid, gid := some gid,
           size := some size, atime := some atime, mtime := some mtime,
           ctime := some ctime, user := user, group := group }
  else
    some { conn_id := some conn, retry := retry, reply := st,
           mode := none, uid := none, gid := none, size := none,
           atime := none, mtime := none, ctime := none,
           user := some anonymousBytes, group := some anonymousBytes }

/-- SizeResponse (TnfsCmd 0x30): a 32-bit capacity, unpacked from the
entire remaining buffer on success. -/
structure SizeResponse where
  conn_id : Option Nat
  retry : Nat
  reply : Nat
  size : Option Nat
deriving DecidableEq

/-- SizeResponse.fromWire. -/
def SizeResponse.fromWire (data : List Nat) : Option SizeResponse := do
  let (conn, retry, st) ← respHeader 48 data
  let d := data.drop 5
  let sz ← if st = 0 then (unpack32 d).map some else some none
  some { conn_id := some conn, retry := retry, reply := st, size := sz }

/-- FreeResponse (TnfsCmd 0x31): a 32-bit free-space figure, unpacked
from the entire remaining buffer on success. -/
structure FreeResponse where
  conn_id : Option Nat
  retry : Nat
  reply : Nat
  free : Option Nat
deriving DecidableEq

/-- FreeResponse.fromWire. -/
def FreeResponse.fromWire (data : List Nat) : Option FreeResponse := do
  let (conn, retry, st) ← respHeader 49 data
  let d := data.drop 5
  let f ← if st = 0 then (unpack32 d).map some else some none
  some { conn_id := some conn, retry := retry, reply := st, free := f }

/-! ## Session engine

Session._SendReceive stamps the pending message with the current
sequence and session values, sends one datagram, blocks for one reply
and only then advances the sequence counter modulo 256.  The transport
is modelled by an oracle: a list of the outcomes of the successive
exchanges. -/

/-- One _SendReceive call's effect on the sequence counter: the counter
advances (mod 256) only when a reply was received; an exception raised
by sendto or recvfrom before the reply leaves it untouched. -/
def sendReceiveSeq (seq : Nat) (gotReply : Bool) : Nat :=
  if gotReply then (seq + 1) % 256 else seq

/-- The sequence value stamped on the next request after a list of
exchange outcomes (true when the exchange obtained a reply). -/
def runSeq (seq : Nat) (outcomes : List Bool) : Nat :=
  outcomes.foldl sendReceiveSeq seq

/-- Events a Session's conn_id state reacts to: a Mount exchange with
the reply's status and conn_id, an Umount exchange (which clears the
session unconditionally), and any other exchange. -/
inductive SessEvent where
  | mountEx (reply : Nat) (connId : Nat)
  | umountEx
  | otherEx
deriving DecidableEq

/-- The Session.session update performed after each exchange:
Session.Mount stores the reply's conn_id only when its status is 0;
Session.Umount stores None; other operations leave it unchanged. -/
def sessStep (s : Option Nat) : SessEvent → Option Nat
  | .mountEx r c => if r = 0 then some c else s
  | .umountEx => none
  | .otherEx => s

/-- The session value (stamped by _SendReceive onto every non-Mount
request) after a trace of exchanges. -/
def sessAfter (s : Option Nat) (tr : List SessEvent) : Option Nat :=
  tr.foldl sessStep s

/-- The transport outcome of one exchange as _SendReceive sees it. -/
inductive Transport where
  | reply (data : List Nat)
  | timeout
deriving DecidableEq

/-- What Session.Mount does with the caller's thread of control. -/
inductive MountResult where
  | returned (reply : Nat) (ver_maj : Nat) (ver_min : Nat) (newSession : Option Nat)
  | processExit (code : Nat)
  | raised
deriving DecidableEq

/-- Session.Mount: a TimeoutError from the exchange is caught, a
message is printed and sys.exit(0) terminates the process; a received
reply is decoded as a MountResponse (a decode failure raises to the
caller) and the session is recorded only on status 0. -/
def sessionMount (oldSession : Option Nat) (t : Transport) : MountResult :=
  match t with
  | .timeout => .processExit 0
  | .reply data =>
    match MountResponse.fromWire data with
    | none => .raised
    | some r =>
      .returned r.reply r.ver_maj r.ver_min
        (if r.reply = 0 then r.conn_id else oldSession)

/-- Any Session operation other than Mount has no try/except around
its exchange: a timeout propagates to the caller as an exception. -/
inductive OpResult where
  | gotData (data : List Nat)
  | raisedToCaller
deriving DecidableEq

/-- The unguarded _SendReceive call every non-Mount operation makes. -/
def sessionExchange (t : Transport) : OpResult :=
  match t with
  | .timeout => .raisedToCaller
  | .reply data => .gotData data

/-- Datagrams sent by one _SendReceive call: exactly one sendto happens
per exchange, whatever the outcome — the engine never retries. -/
def sendReceiveDatagrams (t : Transport) : Nat := 1

/-! ## Chunked whole-file read (Session.Read) -/

/-- One reply to a Read exchange, already decoded: the status byte and
the returned data bytes. -/
structure ReadReply where
  reply : Nat
  data : List Nat
deriving DecidableEq

/-- The value Session.Read produces: either a normal return carrying
the (fd, requested size) of each exchange issued, the returned status
and the accumulated bytes, or an UnboundLocalError when the return
expression reads the loop variable r that was never bound. -/
inductive ReadOutcome where
  | ok (requests : List (Nat × Int)) (status : Nat) (received : Option (List Nat))
  | unboundLocal (requests : List (Nat × Int))
deriving DecidableEq

/-- The code after Session.Read's loop: return (0, bytes) when any
bytes were accumulated, otherwise (r.reply, None) — reading r, which
is unbound when the loop body never ran. -/
def readFinish (reqs : List (Nat × Int)) (acc : List Nat)
    (lastReply : Option Nat) : ReadOutcome :=
  if 0 < acc.length then .ok reqs 0 (some acc)
  else
    match lastReply with
    | some st => .ok reqs st none
    | none => .unboundLocal reqs

/-- The requested size of one Read exchange: size if size <= 512 else
512 (size is a Python int and may only shrink from its argument). -/
def readReqSize (size : Int) : Int :=
  if size ≤ 512 then size else 512

/-- Session.Read's while loop over an oracle of decoded replies.  A
success reply extends the accumulator and subtracts its length from
the remaining size (which therefore stays unchanged on an empty
success reply); a nonzero status breaks.  none means the oracle was
exhausted with the loop still running. -/
def readGo (fd : Nat) : List ReadReply → Int → List Nat → List (Nat × Int) →
    Option Nat → Option ReadOutcome
  | replies, size, acc, reqs, lastReply =>
    if 0 < size then
      match replies with
      | [] => none
      | r :: rest =>
        let reqs2 := reqs ++ [(fd, readReqSize size)]
        if r.reply = 0 then
          readGo fd rest (size - (r.data.length : Int)) (acc ++ r.data)
            reqs2 (some 0)
        else some (readFinish reqs2 acc (some r.reply))
    else some (readFinish reqs acc lastReply)

/-- Session.Read(fd, size) against an oracle of decoded replies. -/
def sessionRead (fd : Nat) (replies : List ReadReply) (size : Int) :
    Option ReadOutcome :=
  readGo fd replies size [] [] none

/-! ## Chunked whole-file write (Session.Write) -/

/-- The value Session.Write produces: a normal return carrying the
(fd, chunk) of each exchange issued, the final status and the written
count, or an UnboundLocalError on an empty buffer. -/
inductive WriteOutcome where
  | ok (chunks : List (Nat × List Nat)) (status : Nat) (written : Nat)
  | unboundLocal
deriving DecidableEq

/-- Session.Write's while loop: each iteration sends the 512-byte slice
at the cursor, breaks on a nonzero status, and otherwise advances the
cursor by the acknowledged count r.size of the reply.  The oracle
gives each reply's (status, acknowledged count). -/
def writeGo : List (Nat × Nat) → List Nat → Nat → List (Nat × List Nat) →
    Option Nat → Nat → Option WriteOutcome
  | replies, dataToSend, written, chunks, lastReply, fd =>
    if written < dataToSend.length then
      match replies with
      | [] => none
      | (st, k) :: rest =>
        let chunk := (dataToSend.drop written).take 512
        if st ≠ 0 then some (.ok (chunks ++ [(fd, chunk)]) st written)
        else writeGo rest dataToSend (written + k)
          (chunks ++ [(fd, chunk)]) (some 0) fd
    else
      match lastReply with
      | some st => some (.ok chunks st written)
      | none => some .unboundLocal

/-- Session.Write(fd, data_to_send) against an oracle of replies. -/
def sessionWrite (fd : Nat) (replies : List (Nat × Nat)) (dataToSend : List Nat) :
    Option WriteOutcome :=
  writeGo replies dataToSend 0 [] none fd

/-! ## Extended whole-directory listing (Session.ListDirX) -/

/-- One decoded reply to a ReadDirX exchange as Session.ReadDirX
returns it: the status byte and r.entries, which is None whenever the
status was nonzero (the decoder leaves the constructor default). -/
structure ReadDirXReply where
  reply : Nat
  entries : Option (List DirEntry)
deriving DecidableEq

/-- How Session.ListDirX leaves the caller: a normal return of the
collected entries, or a TypeError escaping from len(None). -/
inductive ListDirXResult where
  | returned (contents : Option (List DirEntry))
  | typeErrorRaised
deriving DecidableEq

/-- ListDirX's while loop: the guard is reply == 0 and numEntries > 0;
the body calls ReadDirX and immediately evaluates len(entries) to
decrement numEntries — raising TypeError when entries is None — and
only then checks the status before extending the contents. -/
def listDirXGo : List ReadDirXReply → Nat → Int → List DirEntry →
    Option ListDirXResult
  | replies, reply, numEntries, contents =>
    if reply = 0 ∧ 0 < numEntries then
      match replies with
      | [] => none
      | r :: rest =>
        match r.entries with
        | none => some .typeErrorRaised
        | some es =>
          listDirXGo rest r.reply (numEntries - (es.length : Int))
            (if r.reply = 0 then contents ++ es else contents)
    else some (.returned (some contents))

/-- Session.ListDirX: a None reply from OpenDirX (the version
short-circuit) returns None at once; otherwise the loop runs from the
OpenDirX reply's status and entry count. -/
def sessionListDirX (openReply : Option Nat) (numEntries : Int)
    (replies : List ReadDirXReply) : Option ListDirXResult :=
  match openReply with
  | none => some (.returned none)
  | some st => listDirXGo replies st numEntries []

/-! ## Supporting round-trip checks

These mirror the source's own Test/RunTests harness: for the variants
it covers, encode-decode-reencode reproduces both the value and the
bytes. -/

/-- Example Mount command with concrete legal fields. -/
def mountEx : Mount :=
  { conn_id := some 0, retry := 0, ver_maj := 1, ver_min := 2,
    location := some [47, 104], user := some [117], password := some [112] }

/-- Example successful MountResponse with concrete legal fields. -/
def mountRespOkEx : MountResponse :=
  { conn_id := some 48879, retry := 0, reply := 0, ver_maj := 2, ver_min := 6,
    retry_delay := some 4999 }

/-- Example failed MountResponse (only the version bytes follow). -/
def mountRespFailEx : MountResponse :=
  { conn_id := some 48879, retry := 0, reply := 255, ver_maj := 0, ver_min := 0,
    retry_delay := none }

/-- Example successful OpenDirResponse. -/
def openDirRespOkEx : OpenDirResponse :=
  { conn_id := some 48879, retry := 0, reply := 0, handle := some 31 }

/-- Example OpenDir command. -/
def openDirEx : OpenDir :=
  { conn_id := some 48879, retry := 0, path := some [47, 104] }

/-- Round-trip holds for the variants the source's RunTests covers:
decoding the encoded bytes of each example yields the value back. -/
theorem roundtrip_examples_hold :
    (Mount.toWire mountEx).bind Mount.fromWire = some mountEx ∧
    (MountResponse.toWire mountRespOkEx).bind MountResponse.fromWire =
      some mountRespOkEx ∧
    (MountResponse.toWire mountRespFailEx).bind MountResponse.fromWire =
      some mountRespFailEx ∧
    (OpenDirResponse.toWire openDirRespOkEx).bind OpenDirResponse.fromWire =
      some openDirRespOkEx ∧
    (OpenDir.toWire openDirEx).bind OpenDir.fromWire = some openDirEx := by
  refine ⟨by decide, by decide, by decide, by decide, by decide⟩

/-! ## C1 -/

/-- Example OpenDirXResponse with legal concrete fields (success reply,
handle 5, two entries). -/
def exOpenDirXResp : OpenDirXResponse :=
  { conn_id := some 3, retry := 9, reply := 0, handle := some 5,
    entries := 2, path := none }

/-- What fromWire actually produces from exOpenDirXResp's wire bytes:
the one-byte payload is shorter than the three bytes do_DataFromWire
needs, so the early return leaves handle None and entries 0. -/
def decodedOpenDirXResp : OpenDirXResponse :=
  { conn_id := some 3, retry := 9, reply := 0, handle := none,
    entries := 0, path := none }

/-- C1: the round-trip contract fails on OpenDirXResponse.  toWire of a
successful OpenDirXResponse writes only the handle byte, but fromWire
requires at least three payload bytes (handle and entry count) plus a
path; decoding the encoded bytes therefore returns early with the
handle lost, the decoded value differs from the original, and
re-encoding it raises (struct.pack of a None handle). -/
theorem openDirXResponse_roundtrip_violation :
    OpenDirXResponse.toWire exOpenDirXResp = some [3, 0, 9, 23, 0, 5] ∧
    OpenDirXResponse.fromWire [3, 0, 9, 23, 0, 5] = some decodedOpenDirXResp ∧
    decodedOpenDirXResp ≠ exOpenDirXResp ∧
    OpenDirXResponse.toWire decodedOpenDirXResp = none := by
  refine ⟨rfl, rfl, by decide, rfl⟩

/-! ## C4 -/

/-- C4 counterexample: a transport timeout during the Mount exchange
does not surface as an error result — Session.Mount catches the
TimeoutError and calls sys.exit(0), terminating the process. -/
theorem mount_timeout_exits_process :
    sessionMount (some 7) Transport.timeout = MountResult.processExit 0 := rfl

/-- C4 amended: a timeout on the Mount exchange terminates the process
via sys.exit(0); a timeout on any other exchange propagates to the
caller as an uncaught exception; the engine never retries — exactly
one datagram is sent per exchange. -/
theorem transport_timeout_amended :
    (∀ s : Option Nat,
       sessionMount s Transport.timeout = MountResult.processExit 0) ∧
    sessionExchange Transport.timeout = OpResult.raisedToCaller ∧
    (∀ t : Transport, sendReceiveDatagrams t = 1) := by
  exact ⟨fun s => rfl, rfl, fun t => rfl⟩

/-! ## C5 -/

/-- C5: after N exchanges that each received a reply (given any
interleaving of reply-less failures, which leave the counter alone),
the sequence value stamped on the next request is (initial + N) mod
256, provided the initial value is already reduced mod 256 (the
Session starts at 0). -/
theorem sequence_monotonic (init : Nat) (h : init < 256) (outs : List Bool) :
    runSeq init outs = (init + outs.count true) % 256 ∧
    (∀ seq : Nat, sendReceiveSeq seq false = seq) := by
  constructor
  · induction outs generalizing init with
    | nil => simp [runSeq, Nat.mod_eq_of_lt h]
    | cons b rest ih =>
      cases b with
      | true =>
        have h2 : (init + 1) % 256 < 256 := Nat.mod_lt _ (by omega)
        have h3 := ih ((init + 1) % 256) h2
        simp only [runSeq, List.foldl_cons, sendReceiveSeq, if_true] at h3 ⊢
        rw [h3, Nat.mod_add_mod, List.count_cons]
        simp only [beq_self_eq_true, if_true]
        congr 1
        omega
      | false =>
        have h3 := ih init h
        simp only [runSeq, List.foldl_cons, sendReceiveSeq] at h3 ⊢
        simp only [Bool.false_eq_true, if_false] at *
        rw [h3, List.count_cons]
        simp
  · intro seq
    simp [sendReceiveSeq]

/-- C5 witness: three replied exchanges from initial value 5 (with one
reply-less failure in between) stamp 8 on the next request. -/
theorem sequence_monotonic_witness :
    runSeq 5 [true, false, true, true] = (5 + 3) % 256 :=
  (sequence_monotonic 5 (by decide) [true, false, true, true]).1

/-! ## C7 -/

/-- C7: a nonzero status in a ReadDirX reply mid-listing does not
return normally from ListDirX — Session.ReadDirX then hands back
entries = None and the loop's numEntries -= len(entries) raises
TypeError before the status is even checked.  Here OpenDirX succeeded
with five entries and the first ReadDirX reply carries status 255. -/
theorem listDirX_nonzero_status_raises :
    sessionListDirX (some 0) 5 [{ reply := 255, entries := none }] =
      some ListDirXResult.typeErrorRaised := rfl

/-! ## C10 -/

/-- C10: zero-length transfers skip the loops entirely, so the return
expression reads the never-bound loop variable r: Session.Read with
size 0 and Session.Write with an empty buffer raise
UnboundLocalError instead of returning a (status, result) pair, for
every fd and whatever the transport would have replied. -/
theorem zero_length_transfers_unbound (fd : Nat) (replies : List ReadReply)
    (wreplies : List (Nat × Nat)) :
    sessionRead fd replies 0 = some (ReadOutcome.unboundLocal []) ∧
    sessionWrite fd wreplies [] = some WriteOutcome.unboundLocal := by
  constructor
  · rw [sessionRead, readGo.eq_def]
    simp [readFinish]
  · rw [sessionWrite, writeGo.eq_def]
    simp

/-- C10 witness: the two faults at concrete arguments. -/
theorem zero_length_transfers_unbound_witness :
    sessionRead 4 [] 0 = some (ReadOutcome.unboundLocal []) ∧
    sessionWrite 4 [] [] = some WriteOutcome.unboundLocal :=
  zero_length_transfers_unbound 4 [] []

/-! ## C2 -/

/-- C2 counterexample: MountResponse does not gate its payload on the
status byte — do_DataFromWire always unpacks two version bytes, so the
minimal failure response of header plus nonzero status alone fails to
decode (struct.error on an empty slice). -/
theorem mountResponse_minimal_failure_rejected :
    MountResponse.fromWire [1, 2, 3, 0, 255] = none := rfl

/-- C2 amended: for every response variant other than MountResponse, a
failure response decodes from the header and status byte alone, and
the decoded value is completely determined by those five bytes — any
trailing bytes are ignored, so nothing past header+status is needed or
observable.  MountResponse is the exception: its decoder always reads
the two version bytes after the status (failing on the minimal
buffer), and ignores everything after them. -/
theorem status_gating_amended (a b q s v1 v2 : Nat) (h : s ≠ 0)
    (extra : List Nat) :
    MountResponse.fromWire [a, b, q, 0, s] = none ∧
    MountResponse.fromWire ([a, b, q, 0, s, v1, v2] ++ extra) =
      some { conn_id := some (a + 256 * b), retry := q, reply := s,
             ver_maj := v2, ver_min := v1, retry_delay := none } ∧
    UmountResponse.fromWire ([a, b, q, 1, s] ++ extra) =
      some { conn_id := some (a + 256 * b), retry := q, reply := s } ∧
    CloseDirResponse.fromWire ([a, b, q, 18, s] ++ extra) =
      some { conn_id := some (a + 256 * b), retry := q, reply := s } ∧
    MkDirResponse.fromWire ([a, b, q, 19, s] ++ extra) =
      some { conn_id := some (a + 256 * b), retry := q, reply := s } ∧
    RmDirResponse.fromWire ([a, b, q, 20, s] ++ extra) =
      some { conn_id := some (a + 256 * b), retry := q, reply := s } ∧
    CloseResponse.fromWire ([a, b, q, 35, s] ++ extra) =
      some { conn_id := some (a + 256 * b), retry := q, reply := s } ∧
    LSeekResponse.fromWire ([a, b, q, 37, s] ++ extra) =
      some { conn_id := some (a + 256 * b), retry := q, reply := s } ∧
    UnlinkResponse.fromWire ([a, b, q, 38, s] ++ extra) =
      some { conn_id := some (a + 256 * b), retry := q, reply := s } ∧
    ChModResponse.fromWire ([a, b, q, 39, s] ++ extra) =
      some { conn_id := some (a + 256 * b), retry := q, reply := s } ∧
    RenameResponse.fromWire ([a, b, q, 40, s] ++ extra) =
      some { conn_id := some (a + 256 * b), retry := q, reply := s } ∧
    OpenDirResponse.fromWire ([a, b, q, 16, s] ++ extra) =
      some { conn_id := some (a + 256 * b), retry := q, reply := s,
             handle := none } ∧
    ReadDirResponse.fromWire ([a, b, q, 17, s] ++ extra) =
      some { conn_id := some (a + 256 * b), retry := q, reply := s,
             path := none } ∧
    OpenDirXResponse.fromWire ([a, b, q, 23, s] ++ extra) =
      some { conn_id := some (a + 256 * b), retry := q, reply := s,
             handle := none, entries := 0, path := none } ∧
    ReadDirXResponse.fromWire ([a, b, q, 24, s] ++ extra) =
      some { conn_id := some (a + 256 * b), retry := q, reply := s,
             path := none, entries := none, status := none, dpos := none } ∧
    OpenResponse.fromWire ([a, b, q, 41, s] ++ extra) =
      some { conn_id := some (a + 256 * b), retry := q, reply := s,
             fd := none } ∧
    ReadResponse.fromWire ([a, b, q, 33, s] ++ extra) =
      some { conn_id := some (a + 256 * b), retry := q, reply := s,
             size := none, data := none } ∧
    WriteResponse.fromWire ([a, b, q, 34, s] ++ extra) =
      some { conn_id := some (a + 256 * b), retry := q, reply := s,
             size := none } ∧
    StatResponse.fromWire ([a, b, q, 36, s] ++ extra) =
      some { conn_id := some (a + 256 * b), retry := q, reply := s,
             mode := none, uid := none, gid := none, size := none,
             atime := none, mtime := none, ctime := none,
             user := some anonymousBytes, group := some anonymousBytes } ∧
    SizeResponse.fromWire ([a, b, q, 48, s] ++ extra) =
      some { conn_id := some (a + 256 * b), retry := q, reply := s,
             size := none } ∧
    FreeResponse.fromWire ([a, b, q, 49, s] ++ extra) =
      some { conn_id := some (a + 256 * b), retry := q, reply := s,
             free := none } := by
  refine ⟨?_, ?_, ?_, ?_, ?_, ?_, ?_, ?_, ?_, ?_, ?_, ?_, ?_, ?_, ?_, ?_,
    ?_, ?_, ?_, ?_, ?_⟩
  · simp [MountResponse.fromWire, respHeader, parseHeader, unpackHBB,
      unpack8, unpack88, h]
  · simp [MountResponse.fromWire, respHeader, parseHeader, unpackHBB,
      unpack8, unpack88, h]
  · simp [UmountResponse.fromWire, emptyRespFromWire, respHeader,
      parseHeader, unpackHBB, unpack8]
  · simp [CloseDirResponse.fromWire, emptyRespFromWire, respHeader,
      parseHeader, unpackHBB, unpack8]
  · simp [MkDirResponse.fromWire, emptyRespFromWire, respHeader,
      parseHeader, unpackHBB, unpack8]
  · simp [RmDirResponse.fromWire, emptyRespFromWire, respHeader,
      parseHeader, unpackHBB, unpack8]
  · simp [CloseResponse.fromWire, emptyRespFromWire, respHeader,
      parseHeader, unpackHBB, unpack8]
  · simp [LSeekResponse.fromWire, emptyRespFromWire, respHeader,
      parseHeader, unpackHBB, unpack8]
  · simp [UnlinkResponse.fromWire, emptyRespFromWire, respHeader,
      parseHeader, unpackHBB, unpack8]
  · simp [ChModResponse.fromWire, emptyRespFromWire, respHeader,
      parseHeader, unpackHBB, unpack8]
  · simp [RenameResponse.fromWire, emptyRespFromWire, respHeader,
      parseHeader, unpackHBB, unpack8]
  · simp [OpenDirResponse.fromWire, respHeader, parseHeader, unpackHBB,
      unpack8, h]
  · simp [ReadDirResponse.fromWire, respHeader, parseHeader, unpackHBB,
      unpack8, h]
  · by_cases hl : extra.length < 3
    · simp [OpenDirXResponse.fromWire, OpenDirXResponse.do_DataFromWire,
        respHeader, parseHeader, unpackHBB, unpack8, h, hl]
    · have h3 : (extra.take 3).length = 3 := by
        simp [List.length_take]
        omega
      obtain ⟨x, y, z, hxyz⟩ := List.length_eq_three.mp h3
      simp [OpenDirXResponse.fromWire, OpenDirXResponse.do_DataFromWire,
        respHeader, parseHeader, unpackHBB, unpack8, h, hl, hxyz, unpackBH]
  · simp [ReadDirXResponse.fromWire, respHeader, parseHeader, unpackHBB,
      unpack8, h]
  · simp [OpenResponse.fromWire, respHeader, parseHeader, unpackHBB,
      unpack8, h]
  · simp [ReadResponse.fromWire, respHeader, parseHeader, unpackHBB,
      unpack8, h]
  · simp [WriteResponse.fromWire, respHeader, parseHeader, unpackHBB,
      unpack8, h]
  · simp [StatResponse.fromWire, respHeader, parseHeader, unpackHBB,
      unpack8, h]
  · simp [SizeResponse.fromWire, respHeader, parseHeader, unpackHBB,
      unpack8, h]
  · simp [FreeResponse.fromWire, respHeader, parseHeader, unpackHBB,
      unpack8, h]

/-- C2 witness: the amended statement at status 255, header bytes
(1, 2, 3) and three bytes of trailing garbage. -/
theorem status_gating_amended_witness :
    MountResponse.fromWire [1, 2, 3, 0, 255] = none ∧
    MountResponse.fromWire [1, 2, 3, 0, 255, 6, 2, 9, 9, 9] =
      some { conn_id := some 513, retry := 3, reply := 255,
             ver_maj := 2, ver_min := 6, retry_delay := none } ∧
    UmountResponse.fromWire [1, 2, 3, 1, 255, 9, 9, 9] =
      some { conn_id := some 513, retry := 3, reply := 255 } := by
  have h := status_gating_amended 1 2 3 255 6 2 (by decide) [9, 9, 9]
  refine ⟨h.1, ?_, ?_⟩
  · have h2 := h.2.1
    simpa using h2
  · have h2 := h.2.2.1
    simpa using h2

/-! ## C3 -/

/-- C3 counterexample: a success reply carrying zero data bytes does
not terminate the Read loop.  With size 1 and a single (status 0,
empty data) reply, the loop consumes the reply and is still running
(the oracle is exhausted, result none); given a second reply the call
issues a second exchange — two requests are recorded — instead of
having returned after the first. -/
theorem read_zero_data_reply_does_not_terminate :
    sessionRead 4 [{ reply := 0, data := [] }] 1 = none ∧
    sessionRead 4 [{ reply := 0, data := [] }, { reply := 0, data := [97] }] 1 =
      some (ReadOutcome.ok [(4, 1), (4, 1)] 0 (some [97])) := by
  refine ⟨rfl, rfl⟩

/-- C3 amended: the Read loop terminates only when a reply carries a
nonzero status or the remaining size reaches zero or less; a success
reply with zero data bytes leaves the remaining size unchanged and the
loop issues another exchange.  On termination the call returns (0,
accumulated bytes) when any byte was obtained, and otherwise the last
reply's status with no data. -/
theorem read_loop_amended :
    (∀ (fd : Nat) (rest : List ReadReply) (size : Int) (acc : List Nat)
       (reqs : List (Nat × Int)) (lastR : Option Nat), 0 < size →
       readGo fd ({ reply := 0, data := [] } :: rest) size acc reqs lastR =
         readGo fd rest size acc (reqs ++ [(fd, readReqSize size)]) (some 0)) ∧
    (∀ (fd : Nat) (rest : List ReadReply) (size : Int) (acc : List Nat)
       (reqs : List (Nat × Int)) (lastR : Option Nat) (r : ReadReply),
       0 < size → r.reply ≠ 0 →
       readGo fd (r :: rest) size acc reqs lastR =
         some (readFinish (reqs ++ [(fd, readReqSize size)]) acc (some r.reply))) ∧
    (∀ (fd : Nat) (replies : List ReadReply) (size : Int) (acc : List Nat)
       (reqs : List (Nat × Int)) (lastR : Option Nat), size ≤ 0 →
       readGo fd replies size acc reqs lastR = some (readFinish reqs acc lastR)) ∧
    (∀ (reqs : List (Nat × Int)) (acc : List Nat) (lastR : Option Nat),
       0 < acc.length → readFinish reqs acc lastR = ReadOutcome.ok reqs 0 (some acc)) ∧
    (∀ (reqs : List (Nat × Int)) (st : Nat),
       readFinish reqs [] (some st) = ReadOutcome.ok reqs st none) := by
  refine ⟨?_, ?_, ?_, ?_, ?_⟩
  · intro fd rest size acc reqs lastR hs
    rw [readGo.eq_def]
    simp [hs]
  · intro fd rest size acc reqs lastR r hs hr
    rw [readGo.eq_def]
    simp [hs, hr]
  · intro fd replies size acc reqs lastR hs
    rw [readGo.eq_def]
    have hns : ¬ (0 < size) := by omega
    simp [hns]
  · intro reqs acc lastR ha
    simp [readFinish, ha]
  · intro reqs st
    rfl

/-- C3 amended witness: the loop clauses at concrete arguments. -/
theorem read_loop_amended_witness :
    readGo 4 [{ reply := 0, data := [] }] 1 [] [] none =
      readGo 4 [] 1 [] [(4, 1)] (some 0) ∧
    readGo 4 [{ reply := 9, data := [] }] 1 [] [] none =
      some (readFinish [(4, 1)] [] (some 9)) ∧
    readGo 4 [] 0 [97] [(4, 1)] (some 0) = some (readFinish [(4, 1)] [97] (some 0)) ∧
    readFinish [(4, 1)] [97] (some 0) = ReadOutcome.ok [(4, 1)] 0 (some [97]) ∧
    readFinish [(4, 1)] [] (some 9) = ReadOutcome.ok [(4, 1)] 9 none := by
  refine ⟨?_, ?_, ?_, ?_, ?_⟩
  · have h := read_loop_amended.1 4 [] 1 [] [] none (by decide)
    simpa using h
  · have h := (read_loop_amended.2.1) 4 [] 1 [] [] none
      { reply := 9, data := [] } (by decide) (by decide)
    simpa using h
  · exact (read_loop_amended.2.2.1) 4 [] 0 [97] [(4, 1)] (some 0) (by decide)
  · exact (read_loop_amended.2.2.2.1) [(4, 1)] [97] (some 0) (by decide)
  · exact (read_loop_amended.2.2.2.2) [(4, 1)] 9

/-! ## C6 -/

/-- Helper: the only list pack16 can return for v is its two
little-endian bytes. -/
theorem pack16_shape (v : Nat) (cb : List Nat) (h : pack16 v = some cb) :
    cb = [v % 256, v / 256] := by
  rw [pack16] at h
  split at h
  · exact (Option.some_inj.mp h).symm
  · exact Option.noConfusion h

/-- Helper: whatever session value is stamped onto a Mount command, its
encoded header starts with conn_id bytes 0, 0. -/
theorem mount_take2 :
    ∀ (m : Mount) (s : Option Nat) (w : List Nat),
      (m.setSession s).toWire = some w → w.take 2 = [0, 0] := by
  intro m s w hw
  unfold Mount.toWire at hw
  cases hpk : packHBB ((m.setSession s).conn_id) ((m.setSession s).retry) 0 with
  | none => rw [hpk] at hw; exact Option.noConfusion hw
  | some hb =>
    rw [hpk] at hw
    have hconn : (m.setSession s).conn_id = some 0 := rfl
    rw [hconn] at hpk
    unfold packHBB at hpk
    dsimp only at hpk
    cases hcb : pack16 0 with
    | none => rw [hcb] at hpk; exact Option.noConfusion hpk
    | some cb =>
      rw [hcb] at hpk
      cases hrb : pack8 ((m.setSession s).retry) with
      | none => rw [hrb] at hpk; exact Option.noConfusion hpk
      | some rb =>
        rw [hrb] at hpk
        cases hmb : pack8 0 with
        | none => rw [hmb] at hpk; exact Option.noConfusion hpk
        | some mb =>
          rw [hmb] at hpk
          dsimp only at hpk
          simp only [Option.some_inj] at hpk
          have hcb2 : cb = [0, 0] := by
            have hs := pack16_shape 0 cb hcb
            simpa using hs
          cases hdw : (m.setSession s).do_DataToWire with
          | none => rw [hdw] at hw; exact Option.noConfusion hw
          | some d =>
            rw [hdw] at hw
            simp at hw
            rw [hw.symm]
            rw [hpk.symm, hcb2]
            simp

/-- Helper: a non-Mount request stamped with session value v carries
v's two little-endian bytes as its conn_id field (shown for the
OpenDir command, whose setSession is the MessageBase one). -/
theorem opendir_take2 :
    ∀ (m : OpenDir) (v : Nat) (w : List Nat),
      (m.setSession (some v)).toWire = some w → w.take 2 = [v % 256, v / 256] := by
  intro m v w hw
  unfold OpenDir.toWire at hw
  cases hpk : packHBB ((m.setSession (some v)).conn_id)
      ((m.setSession (some v)).retry) 16 with
  | none => rw [hpk] at hw; exact Option.noConfusion hw
  | some hb =>
    rw [hpk] at hw
    simp at hw
    have hconn : (m.setSession (some v)).conn_id = some v := rfl
    rw [hconn] at hpk
    unfold packHBB at hpk
    dsimp only at hpk
    cases hcb : pack16 v with
    | none => rw [hcb] at hpk; exact Option.noConfusion hpk
    | some cb =>
      rw [hcb] at hpk
      cases hrb : pack8 ((m.setSession (some v)).retry) with
      | none => rw [hrb] at hpk; exact Option.noConfusion hpk
      | some rb =>
        rw [hrb] at hpk
        cases hmb : pack8 16 with
        | none => rw [hmb] at hpk; exact Option.noConfusion hpk
        | some mb =>
          rw [hmb] at hpk
          dsimp only at hpk
          simp only [Option.some_inj] at hpk
          have hcb2 : cb = [v % 256, v / 256] := pack16_shape v cb hcb
          rw [hw.symm, hpk.symm, hcb2]
          simp

/-- Helper: the session value survives any run of events that contains
no Umount and no successful Mount. -/
theorem sessAfter_preserved (c : Nat) (tr : List SessEvent)
    (h : ∀ e ∈ tr, e = SessEvent.otherEx ∨
         ∃ r cid, e = SessEvent.mountEx r cid ∧ r ≠ 0) :
    sessAfter (some c) tr = some c := by
  induction tr with
  | nil => rfl
  | cons e rest ih =>
    have he := h e (by simp)
    have hstep : sessStep (some c) e = some c := by
      rcases he with h1 | ⟨r, cid, h2, h3⟩
      · subst h1; rfl
      · subst h2; simp [sessStep, h3]
    rw [sessAfter, List.foldl_cons, hstep]
    exact ih (fun x hx => h x (by simp [hx]))

/-- C6: every encoded Mount request carries conn_id 0 whatever session
value is stamped on it; after a successful Mount whose reply carried
conn_id c, as long as no Umount and no further successful Mount
intervene, the session value stamped onto every subsequent request is
exactly c — and a request stamped with it encodes c's bytes in its
header, while after an Umount (session None) a non-Mount request
cannot even be encoded, so nothing is sent with a stale id. -/
theorem mount_conn_zero_and_session_identity :
    (∀ (m : Mount) (s : Option Nat) (w : List Nat),
       (m.setSession s).toWire = some w → w.take 2 = [0, 0]) ∧
    (∀ (s0 : Option Nat) (tr1 : List SessEvent) (c : Nat) (tr2 : List SessEvent),
       (∀ e ∈ tr2, e = SessEvent.otherEx ∨
          ∃ r cid, e = SessEvent.mountEx r cid ∧ r ≠ 0) →
       sessAfter s0 (tr1 ++ SessEvent.mountEx 0 c :: tr2) = some c) ∧
    (∀ (m : OpenDir) (v : Nat) (w : List Nat),
       (m.setSession (some v)).toWire = some w →
       w.take 2 = [v % 256, v / 256]) ∧
    (∀ m : OpenDir, (m.setSession none).toWire = none) := by
  refine ⟨mount_take2, ?_, opendir_take2, fun m => rfl⟩
  intro s0 tr1 c tr2 h
  rw [sessAfter, List.foldl_append, List.foldl_cons]
  have hstep : sessStep (List.foldl sessStep s0 tr1) (SessEvent.mountEx 0 c) =
      some c := by
    simp [sessStep]
  rw [hstep]
  exact sessAfter_preserved c tr2 h

/-- C6 witness: the conjuncts applied at concrete values — a Mount
stamped with session 5 encodes [0, 0]; a trace mounting conn_id 7
followed by an ordinary exchange and a failed re-mount still stamps 7;
an OpenDir stamped with 261 encodes [5, 1]; one stamped with None is
not encodable. -/
theorem mount_conn_zero_and_session_identity_witness :
    List.take 2 [0, 0, 0, 0, 2, 1, 78, 111, 110, 101, 0, 0, 0] = [0, 0] ∧
    sessAfter none ([SessEvent.otherEx] ++ SessEvent.mountEx 0 7 ::
      [SessEvent.otherEx, SessEvent.mountEx 9 8]) = some 7 ∧
    List.take 2 [5, 1, 0, 16, 78, 111, 110, 101, 0] = [261 % 256, 261 / 256] ∧
    (OpenDir.init.setSession none).toWire = none := by
  have h := mount_conn_zero_and_session_identity
  refine ⟨?_, ?_, ?_, h.2.2.2 OpenDir.init⟩
  · exact h.1 Mount.init (some 5)
      [0, 0, 0, 0, 2, 1, 78, 111, 110, 101, 0, 0, 0] rfl
  · refine h.2.1 none [SessEvent.otherEx] 7
      [SessEvent.otherEx, SessEvent.mountEx 9 8] ?_
    intro e he
    simp only [List.mem_cons, List.not_mem_nil, or_false] at he
    rcases he with rfl | rfl
    · exact Or.inl rfl
    · exact Or.inr ⟨9, 8, rfl, by decide⟩
  · exact h.2.2.1 OpenDir.init 261 [5, 1, 0, 16, 78, 111, 110, 101, 0] rfl

/-! ## C8 -/

/-- C8 counterexample: decoding a string field with no terminator does
not fail loudly — getCstr returns (None, None), and a whole-message
decode such as OpenDir.fromWire on a terminator-free path succeeds
with the path silently degraded to None.  No MalformedField error
exists anywhere in the code. -/
theorem getCstr_no_terminator_silent :
    getCstr [97, 98, 99] 0 = (none, none) ∧
    OpenDir.fromWire [0, 0, 0, 16, 97, 98] =
      some { conn_id := some 0, retry := 0, path := none } := by
  refine ⟨rfl, rfl⟩

/-- C8 amended: whenever the buffer holds no zero byte at or after the
start offset, getCstr returns the silent degraded pair (None, None)
instead of raising a distinct malformed-data error. -/
theorem getCstr_missing_terminator (data : List Nat) (pos : Nat)
    (h : 0 ∉ data.drop pos) : getCstr data pos = (none, none) := by
  have hz : (data.drop pos).findIdx? (fun b => b == 0) = none := by
    rw [List.findIdx?_eq_none_iff]
    intro x hx
    simp only [beq_eq_false_iff_ne, ne_eq]
    intro hx0
    exact h (hx0 ▸ hx)
  rw [getCstr, findZero, hz]
  rfl

/-- C8 amended witness: a two-byte buffer searched from offset 1. -/
theorem getCstr_missing_terminator_witness :
    getCstr [97, 98] 1 = (none, none) :=
  getCstr_missing_terminator [97, 98] 1 (by decide)

/-! ## C9 -/

/-- Helper: one successful Write exchange acknowledging k bytes sends
the 512-byte slice at the cursor and advances the cursor by k. -/
theorem write_cursor_step :
    ∀ (rest : List (Nat × Nat)) (dat : List Nat) (w : Nat)
      (ch : List (Nat × List Nat)) (r : Option Nat) (fd k : Nat),
      w < dat.length →
      writeGo ((0, k) :: rest) dat w ch r fd =
        writeGo rest dat (w + k) (ch ++ [(fd, (dat.drop w).take 512)]) (some 0) fd := by
  intro rest dat w ch r fd k hw
  rw [writeGo.eq_def]
  simp [hw]

/-- C9: with every reply acknowledging exactly what was sent, writing a
1024-byte buffer issues exactly two Write exchanges of the two 512-byte
halves, writing a 1-byte buffer issues exactly one exchange of that
byte, and in general each successful exchange advances the write
cursor by the acknowledged byte count of its reply. -/
theorem write_chunking (fd : Nat) (d e : List Nat)
    (hd : d.length = 1024) (he : e.length = 1) :
    sessionWrite fd [(0, 512), (0, 512)] d =
      some (WriteOutcome.ok [(fd, d.take 512), (fd, (d.drop 512).take 512)] 0 1024) ∧
    sessionWrite fd [(0, 1)] e = some (WriteOutcome.ok [(fd, e)] 0 1) ∧
    (∀ (rest : List (Nat × Nat)) (dat : List Nat) (w : Nat)
       (ch : List (Nat × List Nat)) (r : Option Nat) (k : Nat),
       w < dat.length →
       writeGo ((0, k) :: rest) dat w ch r fd =
         writeGo rest dat (w + k) (ch ++ [(fd, (dat.drop w).take 512)]) (some 0) fd) := by
  refine ⟨?_, ?_, ?_⟩
  · rw [sessionWrite, write_cursor_step _ _ _ _ _ _ _ (by omega),
        write_cursor_step _ _ _ _ _ _ _ (by omega), writeGo.eq_def]
    have h1 : ¬ (0 + 512 + 512 < d.length) := by omega
    simp only [h1, if_false, List.nil_append, List.singleton_append]
    norm_num
  · rw [sessionWrite, write_cursor_step _ _ _ _ _ _ _ (by omega), writeGo.eq_def]
    have h2 : (e.drop 0).take 512 = e := by
      simpa using List.take_of_length_le (by omega)
    simp [he, h2]
  · intro rest dat w ch r k hw
    exact write_cursor_step rest dat w ch r fd k hw

set_option maxRecDepth 8000 in
/-- C9 witness: a concrete 1024-byte buffer of sevens and the 1-byte
buffer [9]. -/
theorem write_chunking_witness :
    sessionWrite 4 [(0, 512), (0, 512)] (List.replicate 1024 7) =
      some (WriteOutcome.ok
        [(4, (List.replicate 1024 7).take 512),
         (4, ((List.replicate 1024 7).drop 512).take 512)] 0 1024) ∧
    sessionWrite 4 [(0, 1)] [9] = some (WriteOutcome.ok [(4, [9])] 0 1) := by
  have h := write_chunking 4 (List.replicate 1024 7) [9] (by simp) (by simp)
  exact ⟨h.1, h.2.1⟩
